import Mathlib

/-!
Verification of the weather store of `vue-weather`
(`src/stores/weatherStore.ts`, first revision, lines 1-505 — the revision all
claims refer to).

The TypeScript store is shallowly embedded: pure computations become Lean
functions, the Pinia store state becomes an explicit `StoreState` record and
each action becomes a state-transformer.  JavaScript numbers carrying
fractional values (temperatures, wind speeds, coordinates) are modelled as
rationals `ℚ`; timestamps (`Date.now()`, epoch seconds) as `Int`.  The
environment facilities the code consumes — the clock, the local time zone,
`toLocaleTimeString`, and the outcomes of the `axios` network calls — enter as
explicit parameters, reflecting the single-threaded event-loop model: each
store action observes one instant `now` and one network outcome.

A JavaScript `Map` is modelled as an insertion-ordered association list with
unique keys (`mapGet` / `mapSet` / `mapDelete`), matching `Map.prototype`
semantics: `set` of a present key updates in place, of an absent key appends.
-/

/-- JavaScript `Math.round`: rounds to the nearest integer, halves toward
positive infinity (`Math.round (x) = ⌊x + 0.5⌋`). -/
def jsRound (q : ℚ) : Int := Int.floor (q + 1/2)

/-- JavaScript truthiness of a possibly-absent string, as used by
`x || fallback`: an absent value and the empty string are falsy. -/
def jsOrElse (x : Option String) (fallback : String) : String :=
  match x with
  | some s => if s = "" then fallback else s
  | none => fallback

/-- `Math.min(...xs)` over a list known to be non-empty at every call site
(the groups built by `processWeatherData` always hold at least one item);
the `[]` case stands in for JavaScript's `Infinity`. -/
def jsMinList (l : List ℚ) : ℚ :=
  match l with
  | [] => 0
  | x :: xs => xs.foldl min x

/-- `Math.max(...xs)` over a list known to be non-empty at every call site;
the `[]` case stands in for JavaScript's `-Infinity`. -/
def jsMaxList (l : List ℚ) : ℚ :=
  match l with
  | [] => 0
  | x :: xs => xs.foldl max x

/-- `Number(x.toFixed(1))`: rounding to one decimal place. -/
def toFixed1 (q : ℚ) : ℚ := (jsRound (q * 10) : ℚ) / 10

/-! ### Error taxonomy (`src/types/weather.ts`, `WeatherErrorType` / `WeatherError`) -/

/-- The four-value error taxonomy of `WeatherErrorType`. -/
inductive WeatherErrorType where
  | NETWORK
  | API_LIMIT
  | LOCATION
  | UNKNOWN
deriving DecidableEq

/-- A typed store error (`WeatherError`). -/
structure WeatherError where
  type : WeatherErrorType
  message : String
deriving DecidableEq

/-- The observable part of an `axios` HTTP response attached to a failure:
its status code and the optional `response.data?.message` text. -/
structure AxiosResponse where
  status : Nat
  dataMessage : Option String
deriving DecidableEq

/-- A failure value reaching `handleError` / `fetchWithRetry`:
`isAxiosError` models `axios.isAxiosError(error)`, `response` the optional
attached HTTP response, `isErrorInstance` models `error instanceof Error`
and `errorMessage` that instance's `.message`. -/
structure UpstreamFailure where
  isAxiosError : Bool
  response : Option AxiosResponse
  isErrorInstance : Bool
  errorMessage : String
deriving DecidableEq

/-- Fallback message text used by `handleError`. -/
def genericErrorMessage : String := "An unexpected error occurred."

/-- `handleError` (weatherStore.ts lines 80-112): classifies a failure into
the four-value taxonomy. -/
def handleError (error : UpstreamFailure) : WeatherError :=
  if error.isAxiosError then
    match error.response with
    | none =>
        ⟨WeatherErrorType.NETWORK, "Network error. Please check your connection."⟩
    | some r =>
        if r.status = 429 then
          ⟨WeatherErrorType.API_LIMIT, "Too many requests. Please try again later."⟩
        else if r.status = 404 then
          ⟨WeatherErrorType.LOCATION, "Location not found. Please check the city name."⟩
        else
          ⟨WeatherErrorType.UNKNOWN, jsOrElse r.dataMessage genericErrorMessage⟩
  else
    ⟨WeatherErrorType.UNKNOWN,
      if error.isErrorInstance then error.errorMessage else genericErrorMessage⟩

/-! ### Retry wrapper (`fetchWithRetry`, lines 171-186) -/

/-- The retryability test of `fetchWithRetry`:
`axios.isAxiosError(error) && error.response && error.response.status >= 500`. -/
def isServerError (error : UpstreamFailure) : Bool :=
  error.isAxiosError &&
    (match error.response with
     | some r => 500 ≤ r.status
     | none => false)

def MAX_RETRIES : Nat := 3

def RETRY_DELAY : Nat := 1000

/-- Trace of one `fetchWithRetry` run: the final settled result, how many
times the wrapped operation `fn` was invoked, and the total wall-clock delay
(ms) inserted by `this.delay(RETRY_DELAY)` calls. -/
structure RetryResult (T : Type) where
  result : Except UpstreamFailure T
  calls : Nat
  delayTotal : Nat

/-- `fetchWithRetry` (lines 171-186).  `fn i` is the outcome of the `i`-th
invocation of the wrapped operation (the code re-invokes the same closure;
successive outcomes may differ, so the invocation index is explicit).
On failure it retries only when the failure is a server error (status ≥ 500)
and retries remain, after a fixed `RETRY_DELAY`; every other failure is
rethrown unchanged. -/
def fetchWithRetry {T : Type} (fn : Nat → Except UpstreamFailure T) :
    Nat → RetryResult T
  | 0 =>
    match fn 0 with
    | Except.ok v => ⟨Except.ok v, 1, 0⟩
    | Except.error e => ⟨Except.error e, 1, 0⟩
  | r + 1 =>
    match fn 0 with
    | Except.ok v => ⟨Except.ok v, 1, 0⟩
    | Except.error e =>
        if isServerError e then
          let sub := fetchWithRetry (fun i => fn (i + 1)) r
          ⟨sub.result, sub.calls + 1, sub.delayTotal + RETRY_DELAY⟩
        else
          ⟨Except.error e, 1, 0⟩

/-! ### Raw upstream data (OpenWeatherMap response shapes, as consumed) -/

/-- One element of an OpenWeatherMap `weather` array (`item.weather[0]`):
only index 0 is read by the store, so only it is modelled. -/
structure RawWeatherDesc where
  description : String
  icon : String
deriving DecidableEq

/-- One 3-hourly entry of the `/forecast` response's `list`, with the nested
fields the store reads flattened: `main.temp` → `temp`, `main.humidity` →
`humidity`, `wind.speed` → `windSpeed`, the optional `pop`, and
`weather[0]` → `weather0`. -/
structure ForecastItem where
  dt : Int
  temp : ℚ
  humidity : ℚ
  windSpeed : ℚ
  pop : Option ℚ
  weather0 : RawWeatherDesc
deriving DecidableEq

/-- The `/weather` response fields the store reads, flattened:
`coord.lat/lon`, `main.*`, `wind.speed` → `windSpeed`, `weather[0]` →
`weather0`, `sys.sunrise/sunset`. -/
structure CurrentWeatherRaw where
  name : String
  lat : ℚ
  lon : ℚ
  temp : ℚ
  feels_like : ℚ
  temp_min : ℚ
  temp_max : ℚ
  humidity : ℚ
  windSpeed : ℚ
  weather0 : RawWeatherDesc
  sunrise : Int
  sunset : Int
  pressure : ℚ
  visibility : ℚ
deriving DecidableEq

/-- The `/air_pollution` response fields the store reads
(`list[0].main.aqi` and `list[0].components.*`), flattened. -/
structure AirPollutionRaw where
  aqi : ℚ
  co : ℚ
  no2 : ℚ
  o3 : ℚ
  pm2_5 : ℚ
  pm10 : ℚ
deriving DecidableEq

/-! ### Processed data (`WeatherData` of `src/types/weather.ts`) -/

/-- `WeatherData.current.airQuality`. -/
structure AirQuality where
  aqi : ℚ
  co : ℚ
  no2 : ℚ
  o3 : ℚ
  pm2_5 : ℚ
  pm10 : ℚ
deriving DecidableEq

/-- `WeatherData.current`. -/
structure CurrentBlock where
  temp : Int
  feelsLike : Int
  tempMin : Int
  tempMax : Int
  humidity : ℚ
  windSpeed : ℚ
  description : String
  icon : String
  sunrise : Int
  sunset : Int
  pressure : ℚ
  visibility : ℚ
  uvIndex : Option ℚ
  airQuality : Option AirQuality
deriving DecidableEq

/-- One entry of `WeatherData.forecast` (`ProcessedForecast`).  The `date`
field holds the UTC day number standing for the `YYYY-MM-DD` string the code
produces with `toISOString().split('T')[0]` (the two are in bijection). -/
structure ProcessedForecastDay where
  date : Int
  temp : Int
  tempMin : Int
  tempMax : Int
  description : String
  icon : String
  humidity : Int
  windSpeed : ℚ
  precipitation : Int
deriving DecidableEq

/-- One entry of `WeatherData.hourlyForecast`. -/
structure HourlyEntry where
  time : String
  temp : Int
  icon : String
  description : String
deriving DecidableEq

/-- The canonical snapshot (`WeatherData`), with `coord` flattened. -/
structure WeatherData where
  city : String
  lat : ℚ
  lon : ℚ
  current : CurrentBlock
  forecast : List ProcessedForecastDay
  hourlyForecast : List HourlyEntry
deriving DecidableEq

/-! ### Environment -/

/-- The browser environment `processWeatherData` reads: the clock
(`Date.now()`, epoch ms), a fixed local-time-zone offset (local time =
UTC + `tzOffsetMs`; daylight-saving shifts are outside the model), and the
locale-dependent `toLocaleTimeString` rendering of an epoch-ms instant. -/
structure Env where
  nowMs : Int
  tzOffsetMs : Int
  formatTime : Int → String

/-- The UTC calendar day of an epoch-ms instant, i.e. the date part of
`new Date(ms).toISOString()`, as a day number. -/
def utcDayOfMs (ms : Int) : Int := ms.fdiv 86400000

/-- Epoch ms of the most recent local midnight, i.e.
`new Date(now.getFullYear(), now.getMonth(), now.getDate()).getTime()`. -/
def localMidnightMs (env : Env) : Int :=
  ((env.nowMs + env.tzOffsetMs).fdiv 86400000) * 86400000 - env.tzOffsetMs

/-! ### `processWeatherData` (lines 213-351) -/

/-- Appends `item` to the group keyed by UTC day `d`, creating the group at
the end when absent — `dailyForecasts.get(dateStr)!.push(item)` preceded by
`dailyForecasts.set(dateStr, [])` when missing, with `Map` insertion order. -/
def insertIntoGroup (groups : List (Int × List ForecastItem)) (d : Int)
    (item : ForecastItem) : List (Int × List ForecastItem) :=
  if groups.any (fun g => g.1 = d) then
    groups.map (fun g => if g.1 = d then (g.1, g.2 ++ [item]) else g)
  else
    groups ++ [(d, [item])]

/-- The `forEach` loop grouping `forecast.data.list` by the UTC day of
`item.dt` (the date part of `toISOString`). -/
def groupByDay (l : List ForecastItem) : List (Int × List ForecastItem) :=
  l.foldl (fun gs item => insertIntoGroup gs (utcDayOfMs (item.dt * 1000)) item) []

/-- One step of building `weatherCounts`:
`weatherCounts.set(desc, (weatherCounts.get(desc) || 0) + 1)`. -/
def bumpCount (counts : List (String × Nat)) (d : String) : List (String × Nat) :=
  if counts.any (fun c => c.1 = d) then
    counts.map (fun c => if c.1 = d then (c.1, c.2 + 1) else c)
  else
    counts ++ [(d, 1)]

/-- `Array.from(weatherCounts.entries()).reduce((a, b) => a[1] > b[1] ? a : b)`:
keeps the accumulator only when its count is strictly greater, so on ties the
later entry wins.  The `[]` case is unreachable (`reduce` on an empty array
throws in JavaScript; every group holds at least one item). -/
def reduceMaxCount (l : List (String × Nat)) : String × Nat :=
  match l with
  | [] => ("", 0)
  | x :: xs => xs.foldl (fun a b => if a.2 > b.2 then a else b) x

/-- The per-day aggregation body of the `.map(([date, items]) => ...)` over
`dailyForecasts` (lines 268-314). -/
def aggregateDay (d : Int) (items : List ForecastItem) : ProcessedForecastDay :=
  let temps := items.map (fun item => item.temp)
  let maxTemp := jsMaxList temps
  let minTemp := jsMinList temps
  let weatherCounts :=
    items.foldl (fun counts item => bumpCount counts item.weather0.description) []
  let mostCommonWeather := (reduceMaxCount weatherCounts).1
  let weatherIcon :=
    match items.find? (fun item => item.weather0.description = mostCommonWeather) with
    | some item => item.weather0.icon
    | none =>
        match items with
        | [] => ""
        | item :: _ => item.weather0.icon
  let avgHumidity :=
    jsRound ((items.foldl (fun sum item => sum + item.humidity) 0) / (items.length : ℚ))
  let avgWindSpeed :=
    toFixed1 ((items.foldl (fun sum item => sum + item.windSpeed) 0) / (items.length : ℚ))
  let maxPrecipitation :=
    jsRound (jsMaxList (items.map (fun item => (item.pop.getD 0) * 100)))
  { date := d
    temp := jsRound ((maxTemp + minTemp) / 2)
    tempMin := jsRound minTemp
    tempMax := jsRound maxTemp
    description := mostCommonWeather
    icon := weatherIcon
    humidity := avgHumidity
    windSpeed := avgWindSpeed
    precipitation := maxPrecipitation }

/-- `processWeatherData` (lines 213-351): normalizes the raw `/weather`,
`/forecast` and optional `/air_pollution` responses into a `WeatherData`
snapshot.  `forecastList` is `forecast.data.list`. -/
def processWeatherData (env : Env) (currentWeather : CurrentWeatherRaw)
    (forecastList : List ForecastItem) (airPollution : Option AirPollutionRaw) :
    WeatherData :=
  let hourlyData : List HourlyEntry :=
    (forecastList.take 8).map (fun item =>
      { time := env.formatTime (item.dt * 1000)
        temp := jsRound item.temp
        icon := item.weather0.icon
        description := item.weather0.description })
  let todayMidnight := localMidnightMs env
  let dailyForecasts := groupByDay forecastList
  let todayStr := utcDayOfMs todayMidnight
  let todayForecast := ((dailyForecasts.find? (fun g => g.1 = todayStr)).map
    (fun g => g.2)).getD []
  let currentTemp := currentWeather.temp
  let todayTempMin0 := currentWeather.temp_min
  let todayTempMax0 := currentWeather.temp_max
  let todayTemps := todayForecast.map (fun item => item.temp) ++
    [currentTemp, todayTempMin0, todayTempMax0]
  let todayTempMin :=
    if todayForecast.length > 0 then jsMinList todayTemps else todayTempMin0
  let todayTempMax :=
    if todayForecast.length > 0 then jsMaxList todayTemps else todayTempMax0
  let processedForecast :=
    ((dailyForecasts.filter (fun g => decide (g.1 * 86400000 ≥ todayMidnight))).map
      (fun g => aggregateDay g.1 g.2)).take 5
  { city := currentWeather.name
    lat := currentWeather.lat
    lon := currentWeather.lon
    current :=
      { temp := jsRound currentTemp
        feelsLike := jsRound currentWeather.feels_like
        tempMin := jsRound todayTempMin
        tempMax := jsRound todayTempMax
        humidity := currentWeather.humidity
        windSpeed := currentWeather.windSpeed
        description := currentWeather.weather0.description
        icon := currentWeather.weather0.icon
        sunrise := currentWeather.sunrise
        sunset := currentWeather.sunset
        pressure := currentWeather.pressure
        visibility := currentWeather.visibility
        uvIndex := none
        airQuality := airPollution.map (fun ap =>
          { aqi := ap.aqi, co := ap.co, no2 := ap.no2, o3 := ap.o3,
            pm2_5 := ap.pm2_5, pm10 := ap.pm10 }) }
    forecast := processedForecast
    hourlyForecast := hourlyData }

/-! ### Cache (`CacheEntry`, the `Map`, and its maintenance) -/

/-- A cache entry (`CacheEntry` of `src/types/weather.ts`).  The source also
stores a write-only `compressed` copy (`compress(JSON.stringify(data))` from
the third-party `lz-string` library); no store code ever reads it back, so it
is not modelled. -/
structure CacheEntry where
  data : WeatherData
  timestamp : Int
  lastAccessed : Int
deriving DecidableEq

/-- `Map.prototype.get`. -/
def mapGet (m : List (String × CacheEntry)) (k : String) : Option CacheEntry :=
  (m.find? (fun p => p.1 = k)).map (fun p => p.2)

/-- `Map.prototype.set`: updates a present key in place (keeping its
insertion position), appends an absent key. -/
def mapSet (m : List (String × CacheEntry)) (k : String) (v : CacheEntry) :
    List (String × CacheEntry) :=
  if m.any (fun p => p.1 = k) then
    m.map (fun p => if p.1 = k then (k, v) else p)
  else
    m ++ [(k, v)]

/-- `Map.prototype.delete`. -/
def mapDelete (m : List (String × CacheEntry)) (k : String) :
    List (String × CacheEntry) :=
  m.filter (fun p => p.1 ≠ k)

def MAX_CACHE_SIZE : Nat := 50

/-- `CACHE_DURATION = 10 * 60 * 1000` ms. -/
def CACHE_DURATION : Int := 10 * 60 * 1000

/-- The ascending comparator `(a, b) => a.lastAccessed - b.lastAccessed`
passed to `Array.prototype.sort`. -/
def leLastAccessed (a b : String × CacheEntry) : Prop :=
  a.2.lastAccessed ≤ b.2.lastAccessed

instance : DecidableRel leLastAccessed :=
  fun a b => inferInstanceAs (Decidable (a.2.lastAccessed ≤ b.2.lastAccessed))

instance : IsTotal (String × CacheEntry) leLastAccessed :=
  ⟨fun a b => Int.le_total a.2.lastAccessed b.2.lastAccessed⟩

instance : IsTrans (String × CacheEntry) leLastAccessed :=
  ⟨fun _ _ _ h1 h2 => le_trans h1 h2⟩

/-- `cleanCache` (lines 130-141): when the cache holds more than
`MAX_CACHE_SIZE` entries, sorts them ascending by `lastAccessed`
(`Array.prototype.sort` with a comparator is a stable ascending sort, as is
`insertionSort` with a non-strict relation) and deletes the first
`size - MAX_CACHE_SIZE` of them; otherwise returns immediately. -/
def cleanCache (cache : List (String × CacheEntry)) : List (String × CacheEntry) :=
  if cache.length ≤ MAX_CACHE_SIZE then cache
  else
    let entries := cache
    let sorted := List.insertionSort leLastAccessed entries
    let entriesToRemove := sorted.take (entries.length - MAX_CACHE_SIZE)
    entriesToRemove.foldl (fun c p => mapDelete c p.1) cache

/-- The callback the 5-minute interval installed by `initializeCacheCleanup`
(lines 114-128) runs on every tick: it invokes `cleanCache` — and nothing
else.  (`initialize` starts this interval, `cleanup` stops it.) -/
def cacheCleanupTick (cache : List (String × CacheEntry)) :
    List (String × CacheEntry) :=
  cleanCache cache

/-- `clearExpiredCache` (lines 484-491): deletes every entry with
`now - entry.timestamp >= CACHE_DURATION`. -/
def clearExpiredCache (now : Int) (cache : List (String × CacheEntry)) :
    List (String × CacheEntry) :=
  cache.filter (fun p => now - p.2.timestamp < CACHE_DURATION)

/-- `updateCacheAccessTime` (lines 409-415): on a present key, sets the
entry's `lastAccessed` to `Date.now()` and writes it back. -/
def updateCacheAccessTime (cache : List (String × CacheEntry)) (key : String)
    (now : Int) : List (String × CacheEntry) :=
  match mapGet cache key with
  | some cacheEntry => mapSet cache key { cacheEntry with lastAccessed := now }
  | none => cache

/-! ### Store state and actions -/

/-- The `'metric' | 'imperial'` unit preference. -/
inductive UnitPref where
  | metric
  | imperial
deriving DecidableEq

/-- `selectedUnit === 'metric' ? 'imperial' : 'metric'`. -/
def toggledUnit : UnitPref → UnitPref
  | UnitPref.metric => UnitPref.imperial
  | UnitPref.imperial => UnitPref.metric

/-- A favorite location (`WeatherState.favorites` element). -/
structure Favorite where
  name : String
  lat : ℚ
  lon : ℚ
deriving DecidableEq

/-- The store state (`WeatherState`), extended with the two localStorage
slots the actions write (`weather-units`, `weather-favorites`) so that
persistence is observable; `cacheCleanupInterval` is dropped (the timer is
modelled by `cacheCleanupTick`). -/
structure StoreState where
  weatherData : Option WeatherData
  loading : Bool
  error : Option WeatherError
  cache : List (String × CacheEntry)
  lastFetchTimestamp : Int
  favorites : List Favorite
  selectedUnit : UnitPref
  storedUnit : Option UnitPref
  storedFavorites : List Favorite

/-- The `params` argument of the fetch actions. -/
structure WeatherParams where
  q : Option String
  lat : Option ℚ
  lon : Option ℚ

/-- Template-literal rendering of a possibly-absent number.  The exact
digit string JavaScript would print is irrelevant to the store: only which
parameter values collide on the same key matters, and that is preserved. -/
def numToString : Option ℚ → String
  | some q => toString q
  | none => "undefined"

/-- `getCacheKey` (lines 159-161): `params.q || "${params.lat},${params.lon}"`
(an absent or empty `q` is falsy and falls through to the coordinate key). -/
def getCacheKey (p : WeatherParams) : String :=
  match p.q with
  | some s => if s = "" then numToString p.lat ++ "," ++ numToString p.lon else s
  | none => numToString p.lat ++ "," ++ numToString p.lon

/-- `isCacheValid` (lines 163-165). -/
def isCacheValid (cacheEntry : CacheEntry) (now : Int) : Prop :=
  now - cacheEntry.timestamp < CACHE_DURATION

instance (e : CacheEntry) (now : Int) : Decidable (isCacheValid e now) :=
  inferInstanceAs (Decidable (_ < _))

/-- The joint payload of the three requests issued by `makeWeatherRequests`
(lines 188-211): the `/weather` and `/forecast` responses, and the
`/air_pollution` response whose failure was already absorbed to `null` by
the `.catch(() => null)` attached to it. -/
structure FetchedData where
  currentWeather : CurrentWeatherRaw
  forecastList : List ForecastItem
  airPollution : Option AirPollutionRaw

/-- `fetchWeatherData` (lines 357-399) as a state transformer.  `outcome` is
how the awaited `makeWeatherRequests` settles (only consulted when the call
reaches the network path).  The try/catch/finally shape of the source is
mirrored by totality: every failure is caught, classified by `handleError`
and stored, and the `finally` clears `loading`; the promise never rejects. -/
def fetchWeatherData (s : StoreState) (p : WeatherParams) (apiKeyConfigured : Bool)
    (outcome : Except UpstreamFailure FetchedData) (now : Int) (env : Env) :
    StoreState :=
  if apiKeyConfigured = false then
    { s with error := some ⟨WeatherErrorType.UNKNOWN, "API key not configured"⟩ }
  else
    let cacheKey := getCacheKey p
    match mapGet s.cache cacheKey with
    | some cached =>
        if isCacheValid cached now then
          { s with
            weatherData := some cached.data
            cache := updateCacheAccessTime s.cache cacheKey now
            error := none }
        else
          fetchWeatherDataNetworkPath s cacheKey outcome now env
    | none => fetchWeatherDataNetworkPath s cacheKey outcome now env
where
  /-- Lines 377-398: `loading = true; error = null;` then the try/catch/finally
  around the network round-trip and the cache write. -/
  fetchWeatherDataNetworkPath (s : StoreState) (cacheKey : String)
      (outcome : Except UpstreamFailure FetchedData) (now : Int) (env : Env) :
      StoreState :=
    let s1 := { s with loading := true, error := none }
    match outcome with
    | Except.ok fetched =>
        let processedData := processWeatherData env fetched.currentWeather
          fetched.forecastList fetched.airPollution
        { s1 with
          cache := mapSet s1.cache cacheKey
            { data := processedData, timestamp := now, lastAccessed := now }
          weatherData := some processedData
          lastFetchTimestamp := now
          loading := false }
    | Except.error e =>
        { s1 with error := some (handleError e), loading := false }

/-- `clearCache` (lines 480-482). -/
def clearCache (s : StoreState) : StoreState :=
  { s with cache := [] }

/-- `toggleUnit` (lines 417-448) as a state transformer: sets `loading`,
persists then installs the flipped unit, clears the cache, and — when a
snapshot is displayed — re-fetches it through `fetchWeatherData` for
`weatherData.coord`; the `finally` clears `loading`.  The catch block
(lines 436-444, error recording plus unit rollback) has no counterpart here
because nothing awaited in the try block can reject: `fetchWeatherData`
catches its own failures and resolves normally, and the remaining statements
(`localStorage.setItem`, `Map.prototype.clear`) do not throw in this model. -/
def toggleUnit (s : StoreState) (apiKeyConfigured : Bool)
    (outcome : Except UpstreamFailure FetchedData) (now : Int) (env : Env) :
    StoreState :=
  let s1 := { s with loading := true }
  let newUnit := toggledUnit s1.selectedUnit
  let s2 := { s1 with storedUnit := some newUnit, selectedUnit := newUnit }
  let s3 := clearCache s2
  let s4 :=
    match s3.weatherData with
    | some wd =>
        fetchWeatherData s3 { q := none, lat := some wd.lat, lon := some wd.lon }
          apiKeyConfigured outcome now env
    | none => s3
  { s4 with loading := false }

/-- `addToFavorites` (lines 450-463): from the displayed snapshot, appends
`{name: city, lat, lon}` unless a favorite with that name is already present,
then persists via `saveFavorites`. -/
def addToFavorites (s : StoreState) : StoreState :=
  match s.weatherData with
  | none => s
  | some wd =>
      if s.favorites.any (fun f => f.name = wd.city) then s
      else
        let favs := s.favorites ++ [{ name := wd.city, lat := wd.lat, lon := wd.lon }]
        { s with favorites := favs, storedFavorites := favs }

/-- `removeFromFavorites` (lines 465-469): keeps exactly the favorites whose
name differs, then persists via `saveFavorites`. -/
def removeFromFavorites (s : StoreState) (cityName : String) : StoreState :=
  let favs := s.favorites.filter (fun f => f.name ≠ cityName)
  { s with favorites := favs, storedFavorites := favs }

/-! ### Helper lemmas -/

/-- The wrapped operation is invoked at most `retries + 1` times. -/
theorem fetchWithRetry_calls_le {T : Type} :
    ∀ (r : Nat) (fn : Nat → Except UpstreamFailure T),
      (fetchWithRetry fn r).calls ≤ r + 1 := by
  intro r
  induction r with
  | zero =>
      intro fn
      unfold fetchWithRetry
      cases fn 0 <;> simp
  | succ n ih =>
      intro fn
      unfold fetchWithRetry
      cases fn 0 with
      | ok v => simp
      | error e =>
          by_cases hs : isServerError e
          · simpa [hs] using Nat.succ_le_succ (ih (fun i => fn (i + 1)))
          · simp [hs]

/-- Unfolding equation for the retrying branch of `fetchWithRetry`. -/
theorem fetchWithRetry_retry_step {T : Type} (fn : Nat → Except UpstreamFailure T)
    (r' : Nat) (e : UpstreamFailure) (he : fn 0 = Except.error e)
    (hs : isServerError e = true) :
    fetchWithRetry fn (r' + 1) =
      ⟨(fetchWithRetry (fun i => fn (i + 1)) r').result,
       (fetchWithRetry (fun i => fn (i + 1)) r').calls + 1,
       (fetchWithRetry (fun i => fn (i + 1)) r').delayTotal + RETRY_DELAY⟩ := by
  conv_lhs => unfold fetchWithRetry
  rw [he]
  simp [hs]

/-! ### Claim theorems -/

/-- C6: for every async operation `fn` and retry budget `r`, the retry
wrapper invokes `fn`; if `fn` fails with an HTTP response of status ≥ 500
and `r > 0`, it waits 1000 ms and recurses with budget `r - 1`; any failure
that is not a server error, and a server-error failure at budget 0, is
propagated immediately unchanged; `fn` is invoked at most `r + 1` times (the
wrapper is a total function, so it terminates). -/
theorem fetchWithRetry_spec {T : Type} (fn : Nat → Except UpstreamFailure T)
    (r : Nat) :
    (fetchWithRetry fn r).calls ≤ r + 1 ∧
    (∀ v, fn 0 = Except.ok v → fetchWithRetry fn r = ⟨Except.ok v, 1, 0⟩) ∧
    (∀ e, fn 0 = Except.error e → isServerError e = false →
      fetchWithRetry fn r = ⟨Except.error e, 1, 0⟩) ∧
    (∀ e, fn 0 = Except.error e → r = 0 →
      fetchWithRetry fn r = ⟨Except.error e, 1, 0⟩) ∧
    (∀ e r', fn 0 = Except.error e → isServerError e = true → r = r' + 1 →
      fetchWithRetry fn r =
        ⟨(fetchWithRetry (fun i => fn (i + 1)) r').result,
         (fetchWithRetry (fun i => fn (i + 1)) r').calls + 1,
         (fetchWithRetry (fun i => fn (i + 1)) r').delayTotal + RETRY_DELAY⟩) := by
  refine ⟨fetchWithRetry_calls_le r fn, ?_, ?_, ?_, ?_⟩
  · intro v hv
    cases r <;> · unfold fetchWithRetry; rw [hv]
  · intro e he hns
    cases r
    · unfold fetchWithRetry; rw [he]
    · unfold fetchWithRetry; rw [he]; simp [hns]
  · intro e he hr
    subst hr
    unfold fetchWithRetry; rw [he]
  · intro e r' he hs hr
    subst hr
    exact fetchWithRetry_retry_step fn r' e he hs

/-- Fixture: a retryable server failure (HTTP 503). -/
def exErr503 : UpstreamFailure := ⟨true, some ⟨503, none⟩, true, "boom"⟩

/-- Fixture: a non-retryable client failure (HTTP 404). -/
def exErr404 : UpstreamFailure := ⟨true, some ⟨404, none⟩, true, "not found"⟩

/-- Fixture: an operation that always fails with HTTP 404. -/
def exFn404 : Nat → Except UpstreamFailure Nat := fun _ => Except.error exErr404

/-- C6 witness: a 404 failure propagates on the first invocation even with
the default budget of 3. -/
theorem fetchWithRetry_spec_witness :
    exFn404 0 = Except.error exErr404 ∧ isServerError exErr404 = false ∧
    fetchWithRetry exFn404 MAX_RETRIES = ⟨Except.error exErr404, 1, 0⟩ :=
  ⟨rfl, by decide, (fetchWithRetry_spec exFn404 MAX_RETRIES).2.2.1 exErr404 rfl (by decide)⟩

/-- C7: `handleError` is total over failures and lands every failure in
exactly one of the four taxonomy values: an axios failure with no response →
`NETWORK`; HTTP 429 → `API_LIMIT`; HTTP 404 → `LOCATION`; every other
failure → `UNKNOWN`, carrying the upstream message when a (non-empty) one is
available and the generic fallback otherwise. -/
theorem handleError_taxonomy (e : UpstreamFailure) :
    ((handleError e).type = WeatherErrorType.NETWORK ∨
     (handleError e).type = WeatherErrorType.API_LIMIT ∨
     (handleError e).type = WeatherErrorType.LOCATION ∨
     (handleError e).type = WeatherErrorType.UNKNOWN) ∧
    (e.isAxiosError = true → e.response = none →
      handleError e = ⟨WeatherErrorType.NETWORK,
        "Network error. Please check your connection."⟩) ∧
    (∀ r, e.isAxiosError = true → e.response = some r → r.status = 429 →
      handleError e = ⟨WeatherErrorType.API_LIMIT,
        "Too many requests. Please try again later."⟩) ∧
    (∀ r, e.isAxiosError = true → e.response = some r → r.status = 404 →
      handleError e = ⟨WeatherErrorType.LOCATION,
        "Location not found. Please check the city name."⟩) ∧
    (∀ r, e.isAxiosError = true → e.response = some r → r.status ≠ 429 →
      r.status ≠ 404 →
      handleError e = ⟨WeatherErrorType.UNKNOWN,
        jsOrElse r.dataMessage genericErrorMessage⟩) ∧
    (e.isAxiosError = false →
      handleError e = ⟨WeatherErrorType.UNKNOWN,
        if e.isErrorInstance then e.errorMessage else genericErrorMessage⟩) := by
  refine ⟨?_, ?_, ?_, ?_, ?_, ?_⟩
  · cases h : (handleError e).type <;> simp
  · intro hax hresp
    simp [handleError, hax, hresp]
  · intro r hax hresp h429
    simp [handleError, hax, hresp, h429]
  · intro r hax hresp h404
    simp [handleError, hax, hresp, h404]
  · intro r hax hresp h429 h404
    simp [handleError, hax, hresp, h429, h404]
  · intro hax
    simp [handleError, hax]

/-- Fixture: an unclassified axios failure (HTTP 500) carrying an upstream
message text. -/
def exErr500msg : UpstreamFailure := ⟨true, some ⟨500, some "Server exploded"⟩, true, "x"⟩

/-- C7 witness: a 500 response with an upstream message maps to `UNKNOWN`
carrying that message. -/
theorem handleError_taxonomy_witness :
    handleError exErr500msg =
      ⟨WeatherErrorType.UNKNOWN, "Server exploded"⟩ :=
  ((handleError_taxonomy exErr500msg).2.2.2.2.1 ⟨500, some "Server exploded"⟩
    rfl rfl (by decide) (by decide)).trans (by decide)

/-- The favorites' name column, over which the uniqueness invariant is
stated. -/
def favNames (l : List Favorite) : List String := l.map (fun f => f.name)

/-- C9: every favorites mutation preserves the no-duplicate-names invariant;
adding a favorite whose name is already present leaves the list unchanged;
removal deletes every entry bearing the given name. -/
theorem favorites_uniqueness (s : StoreState) (cityName : String)
    (h : (favNames s.favorites).Nodup) :
    (favNames (addToFavorites s).favorites).Nodup ∧
    (favNames (removeFromFavorites s cityName).favorites).Nodup ∧
    (∀ wd, s.weatherData = some wd → wd.city ∈ favNames s.favorites →
      (addToFavorites s).favorites = s.favorites) ∧
    (∀ f, f ∈ (removeFromFavorites s cityName).favorites → f.name ≠ cityName) := by
  refine ⟨?_, ?_, ?_, ?_⟩
  · unfold addToFavorites
    cases hwd : s.weatherData with
    | none => exact h
    | some wd =>
        by_cases hin : s.favorites.any (fun f => f.name = wd.city)
        · simpa [hin] using h
        · simp only [hin, if_false, Bool.false_eq_true]
          have hnotin : wd.city ∉ favNames s.favorites := by
            intro hmem
            apply hin
            rw [List.any_eq_true]
            obtain ⟨f, hf, hname⟩ := List.mem_map.mp hmem
            exact ⟨f, hf, by simp [hname]⟩
          simp only [favNames, List.map_append, List.map_cons, List.map_nil]
          rw [List.nodup_append]
          exact ⟨h, List.nodup_singleton _, by simpa [favNames] using hnotin⟩
  · unfold removeFromFavorites
    exact h.sublist ((List.filter_sublist _).map _)
  · intro wd hwd hmem
    unfold addToFavorites
    rw [hwd]
    have : s.favorites.any (fun f => f.name = wd.city) = true := by
      rw [List.any_eq_true]
      obtain ⟨f, hf, hname⟩ := List.mem_map.mp hmem
      exact ⟨f, hf, by simp [hname]⟩
    simp [this]
  · intro f hf
    unfold removeFromFavorites at hf
    simp only at hf
    have := List.mem_filter.mp hf
    simpa using this.2

/-- Fixture: a minimal snapshot for store-level scenarios, displaying the
city `"Paris"` at coordinates `(48, 2)`. -/
def exSnapshot : WeatherData :=
  { city := "Paris", lat := 48, lon := 2
    current :=
      { temp := 10, feelsLike := 9, tempMin := 5, tempMax := 12, humidity := 70,
        windSpeed := 3, description := "overcast clouds", icon := "04d",
        sunrise := 800000, sunset := 850000, pressure := 1013,
        visibility := 10000, uvIndex := none, airQuality := none }
    forecast := []
    hourlyForecast := [] }

/-- Fixture: a store state displaying `exSnapshot`, with `"Paris"` already a
favorite, metric units, and an empty cache. -/
def exStateParis : StoreState :=
  { weatherData := some exSnapshot
    loading := false
    error := none
    cache := []
    lastFetchTimestamp := 0
    favorites := [{ name := "Paris", lat := 48, lon := 2 }]
    selectedUnit := UnitPref.metric
    storedUnit := some UnitPref.metric
    storedFavorites := [{ name := "Paris", lat := 48, lon := 2 }] }

/-- C9 witness: on a duplicate-free list already containing `"Paris"`,
adding the displayed `"Paris"` snapshot leaves the favorites unchanged. -/
theorem favorites_uniqueness_witness :
    (favNames exStateParis.favorites).Nodup ∧
    (addToFavorites exStateParis).favorites = exStateParis.favorites :=
  ⟨by decide,
   (favorites_uniqueness exStateParis "Lyon" (by decide)).2.2.1 exSnapshot rfl (by decide)⟩

/-- Fixture: a weather description. -/
def exDesc : RawWeatherDesc := ⟨"overcast clouds", "04d"⟩

/-- Fixture: the `i`-th 3-hourly forecast item of UTC day 100, at 5 °C. -/
def exHourItem (i : Nat) : ForecastItem :=
  { dt := 8640000 + i * 10800, temp := 5, humidity := 50, windSpeed := 3,
    pop := some (1/2), weather0 := exDesc }

/-- Fixture: an upstream forecast list of 24 hourly entries. -/
def exItems24 : List ForecastItem := (List.range 24).map exHourItem

/-- Fixture: an environment whose clock reads 01:00 UTC on day 100, in the
UTC time zone. -/
def exEnv : Env := { nowMs := 8640000000 + 3600000, tzOffsetMs := 0, formatTime := fun _ => "" }

/-- Fixture: a current-weather reading at 5 °C whose own `temp_min = 2` lies
below everything in today's forecast items. -/
def exCw : CurrentWeatherRaw :=
  { name := "Paris", lat := 4885/100, lon := 235/100, temp := 5, feels_like := 4,
    temp_min := 2, temp_max := 6, humidity := 70, windSpeed := 3,
    weather0 := exDesc, sunrise := 8640000, sunset := 8690000,
    pressure := 1013, visibility := 10000 }

/-- C5 counterexample: on an upstream list of 24 hourly entries the produced
`hourlyForecast` has 8 entries (`slice(0, 8)`), not 24. -/
theorem hourly_slice_counterexample :
    exItems24.length = 24 ∧
    (processWeatherData exEnv exCw exItems24 none).hourlyForecast.length = 8 ∧
    ¬ (processWeatherData exEnv exCw exItems24 none).hourlyForecast.length = 24 := by
  refine ⟨by decide, ?_, ?_⟩ <;> decide

/-- C5 amended: for every upstream forecast list, `hourlyForecast` consists
of exactly the first 8 entries (3-hour steps, covering 24 hours) in their
original order, each with temperature rounded to the nearest integer, and
never holds more than 8 entries. -/
theorem hourly_slice_first8 (env : Env) (cw : CurrentWeatherRaw)
    (air : Option AirPollutionRaw) (l : List ForecastItem) :
    (processWeatherData env cw l air).hourlyForecast
      = (l.take 8).map (fun item =>
          { time := env.formatTime (item.dt * 1000)
            temp := jsRound item.temp
            icon := item.weather0.icon
            description := item.weather0.description : HourlyEntry }) ∧
    (processWeatherData env cw l air).hourlyForecast.length ≤ 8 := by
  have h : (processWeatherData env cw l air).hourlyForecast
      = (l.take 8).map (fun item =>
          { time := env.formatTime (item.dt * 1000)
            temp := jsRound item.temp
            icon := item.weather0.icon
            description := item.weather0.description : HourlyEntry }) := rfl
  refine ⟨h, ?_⟩
  rw [h, List.length_map, List.length_take]
  exact min_le_left _ _

/-- The group of forecast items falling on "today" (the UTC day containing
the local midnight), i.e. `dailyForecasts.get(todayStr) || []`. -/
def todayGroupOf (env : Env) (l : List ForecastItem) : List ForecastItem :=
  (((groupByDay l).find? (fun g => g.1 = utcDayOfMs (localMidnightMs env))).map
    (fun g => g.2)).getD []

/-- Fixture: two forecast items on day 100 at 5 °C and 6 °C. -/
def exItemsToday : List ForecastItem :=
  [exHourItem 0, { exHourItem 1 with temp := 6 }]

/-- C4 counterexample: with today's daily entry showing `tempMin = 5`, the
snapshot's `current.tempMin` is `2` — it was recomputed by folding in the
current reading's `temp_min`, not taken from the first daily entry. -/
theorem today_minmax_counterexample :
    ((processWeatherData exEnv exCw exItemsToday none).forecast.map
      (fun d => (d.tempMin, d.tempMax))) = [(5, 6)] ∧
    (processWeatherData exEnv exCw exItemsToday none).current.tempMin = 2 ∧
    ¬ (processWeatherData exEnv exCw exItemsToday none).current.tempMin = 5 := by
  have h1 : Int.fdiv 8640000000 86400000 = 100 := by decide
  have h2 : Int.fdiv 8650800000 86400000 = 100 := by decide
  have h3 : Int.fdiv 8643600000 86400000 = 100 := by decide
  refine ⟨?_, ?_, ?_⟩ <;>
    norm_num [processWeatherData, aggregateDay, groupByDay, insertIntoGroup, bumpCount,
      reduceMaxCount, jsRound, jsMinList, jsMaxList, toFixed1, utcDayOfMs, localMidnightMs,
      exEnv, exCw, exItemsToday, exHourItem, exDesc, h1, h2, h3]

/-- C4 amended: `current.tempMin`/`current.tempMax` are recomputed: when at
least one forecast item falls on today, they are the rounded extremes over
today's item temperatures together with the current reading's `temp`,
`temp_min` and `temp_max`; only when no item falls on today are they the
rounded `temp_min`/`temp_max` of the current reading. -/
theorem current_minmax_recomputed (env : Env) (cw : CurrentWeatherRaw)
    (air : Option AirPollutionRaw) (l : List ForecastItem) :
    ((todayGroupOf env l).length > 0 →
      (processWeatherData env cw l air).current.tempMin
        = jsRound (jsMinList ((todayGroupOf env l).map (fun item => item.temp)
            ++ [cw.temp, cw.temp_min, cw.temp_max])) ∧
      (processWeatherData env cw l air).current.tempMax
        = jsRound (jsMaxList ((todayGroupOf env l).map (fun item => item.temp)
            ++ [cw.temp, cw.temp_min, cw.temp_max]))) ∧
    ((todayGroupOf env l).length = 0 →
      (processWeatherData env cw l air).current.tempMin = jsRound cw.temp_min ∧
      (processWeatherData env cw l air).current.tempMax = jsRound cw.temp_max) := by
  simp only [processWeatherData, todayGroupOf]
  constructor
  · intro h
    rw [if_pos h, if_pos h]
    exact ⟨rfl, rfl⟩
  · intro h
    rw [if_neg (by simp [h]), if_neg (by simp [h])]
    exact ⟨rfl, rfl⟩

/-- C4 amended witness: at the concrete counterexample input the combined
minimum is `2`. -/
theorem current_minmax_recomputed_witness :
    (todayGroupOf exEnv exItemsToday).length > 0 ∧
    (processWeatherData exEnv exCw exItemsToday none).current.tempMin
      = jsRound (jsMinList ((todayGroupOf exEnv exItemsToday).map (fun item => item.temp)
          ++ [exCw.temp, exCw.temp_min, exCw.temp_max])) :=
  ⟨by
    have h1 : Int.fdiv 8640000000 86400000 = 100 := by decide
    have h2 : Int.fdiv 8650800000 86400000 = 100 := by decide
    have h3 : Int.fdiv 8643600000 86400000 = 100 := by decide
    norm_num [todayGroupOf, groupByDay, insertIntoGroup, utcDayOfMs, localMidnightMs,
      exEnv, exItemsToday, exHourItem, exDesc, h1, h2, h3],
   ((current_minmax_recomputed exEnv exCw none exItemsToday).1 (by
    have h1 : Int.fdiv 8640000000 86400000 = 100 := by decide
    have h2 : Int.fdiv 8650800000 86400000 = 100 := by decide
    have h3 : Int.fdiv 8643600000 86400000 = 100 := by decide
    norm_num [todayGroupOf, groupByDay, insertIntoGroup, utcDayOfMs, localMidnightMs,
      exEnv, exItemsToday, exHourItem, exDesc, h1, h2, h3])).1⟩

/-- Fixture: a network-level failure (request never reached the server). -/
def exErrNet : UpstreamFailure := ⟨true, none, true, "Network Error"⟩

/-- C1 (code bug): when the re-fetch inside `toggleUnit` fails, the typed
error is recorded, but the unit preference and its persisted copy keep the
NEW (flipped) value — the rollback in the catch block never runs, because
`fetchWeatherData` catches its own failures and resolves normally. -/
theorem toggleUnit_refetch_failure_no_rollback :
    exStateParis.selectedUnit = UnitPref.metric ∧
    exStateParis.storedUnit = some UnitPref.metric ∧
    (toggleUnit exStateParis true (Except.error exErrNet) 1000 exEnv).selectedUnit
      = UnitPref.imperial ∧
    (toggleUnit exStateParis true (Except.error exErrNet) 1000 exEnv).storedUnit
      = some UnitPref.imperial ∧
    (toggleUnit exStateParis true (Except.error exErrNet) 1000 exEnv).error
      = some ⟨WeatherErrorType.NETWORK, "Network error. Please check your connection."⟩ :=
  ⟨rfl, rfl, rfl, rfl, rfl⟩

/-- Fixture: a single-entry cache whose entry is 10 minutes old at
`now = 600000`. -/
def exExpiredCache : List (String × CacheEntry) :=
  [("Paris", { data := exSnapshot, timestamp := 0, lastAccessed := 0 })]

/-- C3 (code bug): the 5-minute timer's callback runs `cleanCache`, which
returns a ≤ 50-entry cache untouched, so a TTL-expired entry survives every
periodic tick; `clearExpiredCache` would remove it but is never invoked by
the timer. -/
theorem periodic_tick_retains_expired_entry :
    (600000 : Int) - (0 : Int) ≥ CACHE_DURATION ∧
    cacheCleanupTick exExpiredCache = exExpiredCache ∧
    clearExpiredCache 600000 exExpiredCache = [] :=
  ⟨by decide, rfl, rfl⟩

/-- Whether the store holds a valid (unexpired) cache entry for the derived
key — the condition under which `fetchWeatherData` answers from the cache. -/
def cacheHit (s : StoreState) (p : WeatherParams) (now : Int) : Bool :=
  match mapGet s.cache (getCacheKey p) with
  | some cached => decide (isCacheValid cached now)
  | none => false

/-- C10: `fetchWeatherData` resolves normally for every outcome of the
network calls — in the model it is a total state transformer mirroring the
source's try/catch/finally — and after it completes the loading flag is
false; a missing API key and every network-path failure are converted into
a typed `WeatherError` stored in state, never a rejection observable by
callers. -/
theorem fetchWeatherData_never_rejects (s : StoreState) (p : WeatherParams)
    (apiKeyConfigured : Bool) (outcome : Except UpstreamFailure FetchedData)
    (now : Int) (env : Env) (hload : s.loading = false) :
    (fetchWeatherData s p apiKeyConfigured outcome now env).loading = false ∧
    (apiKeyConfigured = false →
      (fetchWeatherData s p apiKeyConfigured outcome now env).error
        = some ⟨WeatherErrorType.UNKNOWN, "API key not configured"⟩) ∧
    (∀ e, apiKeyConfigured = true → cacheHit s p now = false →
      outcome = Except.error e →
      (fetchWeatherData s p apiKeyConfigured outcome now env).error
        = some (handleError e)) := by
  refine ⟨?_, ?_, ?_⟩
  · cases apiKeyConfigured with
    | false => simpa [fetchWeatherData] using hload
    | true =>
        cases hm : mapGet s.cache (getCacheKey p) with
        | some cached =>
            by_cases hv : isCacheValid cached now
            · simpa [fetchWeatherData, hm, hv] using hload
            · cases outcome <;>
                simp [fetchWeatherData, fetchWeatherData.fetchWeatherDataNetworkPath,
                  hm, hv]
        | none =>
            cases outcome <;>
              simp [fetchWeatherData, fetchWeatherData.fetchWeatherDataNetworkPath, hm]
  · intro hk
    subst hk
    simp [fetchWeatherData]
  · intro e hk hch hout
    subst hk
    subst hout
    cases hm : mapGet s.cache (getCacheKey p) with
    | some cached =>
        by_cases hv : isCacheValid cached now
        · exfalso
          unfold cacheHit at hch
          rw [hm] at hch
          simp [hv] at hch
        · simp [fetchWeatherData, fetchWeatherData.fetchWeatherDataNetworkPath, hm, hv]
    | none =>
        simp [fetchWeatherData, fetchWeatherData.fetchWeatherDataNetworkPath, hm]

/-- Fixture: a by-name query for Paris. -/
def exParamsQ : WeatherParams := ⟨some "Paris", none, none⟩

/-- C10 witness: on the concrete store with an empty cache, a failing fetch
stores the classified error and leaves loading false. -/
theorem fetchWeatherData_never_rejects_witness :
    exStateParis.loading = false ∧
    (fetchWeatherData exStateParis exParamsQ true (Except.error exErrNet) 0 exEnv).loading
      = false ∧
    (fetchWeatherData exStateParis exParamsQ true (Except.error exErrNet) 0 exEnv).error
      = some (handleError exErrNet) :=
  ⟨rfl,
   (fetchWeatherData_never_rejects exStateParis exParamsQ true
     (Except.error exErrNet) 0 exEnv rfl).1,
   (fetchWeatherData_never_rejects exStateParis exParamsQ true
     (Except.error exErrNet) 0 exEnv rfl).2.2 exErrNet rfl rfl rfl⟩

/-- Reading back the key just overwritten in the key-replacing branch of
`mapSet` yields the new value. -/
theorem mapGet_map_replace (k : String) (v : CacheEntry) :
    ∀ m : List (String × CacheEntry), m.any (fun p => p.1 = k) = true →
      mapGet (m.map (fun p => if p.1 = k then (k, v) else p)) k = some v := by
  intro m
  induction m with
  | nil => intro h; simp at h
  | cons p m ih =>
      intro h
      by_cases hp : p.1 = k
      · simp [mapGet, hp]
      · have hm : m.any (fun p => p.1 = k) = true := by
          simpa [List.any_cons, hp] using h
        simpa [mapGet, hp] using ih hm

/-- Reading back the key just appended in the key-adding branch of `mapSet`
yields the new value. -/
theorem mapGet_append_new (k : String) (v : CacheEntry) :
    ∀ m : List (String × CacheEntry), ¬ m.any (fun p => p.1 = k) = true →
      mapGet (m ++ [(k, v)]) k = some v := by
  intro m
  induction m with
  | nil => intro _; simp [mapGet]
  | cons p m ih =>
      intro h
      rw [List.any_cons] at h
      have hp : ¬ p.1 = k := fun hpk => h (by simp [hpk])
      have hm : ¬ m.any (fun p => p.1 = k) = true := fun hmk => h (by simp [hmk])
      simpa [mapGet, hp] using ih hm

/-- `Map.set` then `Map.get` of the same key yields the stored value. -/
theorem mapGet_mapSet_self (m : List (String × CacheEntry)) (k : String)
    (v : CacheEntry) : mapGet (mapSet m k v) k = some v := by
  by_cases h : m.any (fun p => p.1 = k) = true
  · rw [mapSet, if_pos h]
    exact mapGet_map_replace k v m h
  · rw [mapSet, if_neg h]
    exact mapGet_append_new k v m h

/-- C8: writing a snapshot under a key (the cache write of a successful
fetch at time `tw`) and querying the same key again at `tr` within the TTL
yields that snapshot, records no error, and updates the entry's
`lastAccessed` to the read time `tr` (its `timestamp` stays `tw`). -/
theorem cache_roundtrip (s : StoreState) (p : WeatherParams) (fetched : FetchedData)
    (tw tr : Int) (env env2 : Env) (outcome2 : Except UpstreamFailure FetchedData)
    (hmiss : mapGet s.cache (getCacheKey p) = none)
    (httl : tr - tw < CACHE_DURATION) :
    (fetchWeatherData (fetchWeatherData s p true (Except.ok fetched) tw env)
        p true outcome2 tr env2).weatherData
      = some (processWeatherData env fetched.currentWeather fetched.forecastList
          fetched.airPollution) ∧
    mapGet (fetchWeatherData (fetchWeatherData s p true (Except.ok fetched) tw env)
        p true outcome2 tr env2).cache (getCacheKey p)
      = some { data := (processWeatherData env fetched.currentWeather fetched.forecastList fetched.airPollution),
               timestamp := tw,
               lastAccessed := tr } ∧
    (fetchWeatherData (fetchWeatherData s p true (Except.ok fetched) tw env)
        p true outcome2 tr env2).error = none := by
  have h1 : fetchWeatherData s p true (Except.ok fetched) tw env
      = { s with
          loading := false
          error := none
          cache := mapSet s.cache (getCacheKey p)
            { data := (processWeatherData env fetched.currentWeather fetched.forecastList fetched.airPollution),
              timestamp := tw,
              lastAccessed := tw }
          weatherData := some (processWeatherData env fetched.currentWeather fetched.forecastList fetched.airPollution)
          lastFetchTimestamp := tw } := by
    simp [fetchWeatherData, fetchWeatherData.fetchWeatherDataNetworkPath, hmiss]
  rw [h1]
  have hget : mapGet (mapSet s.cache (getCacheKey p)
      { data := (processWeatherData env fetched.currentWeather fetched.forecastList fetched.airPollution),
        timestamp := tw,
        lastAccessed := tw }) (getCacheKey p)
      = some { data := (processWeatherData env fetched.currentWeather fetched.forecastList fetched.airPollution),
               timestamp := tw,
               lastAccessed := tw } := mapGet_mapSet_self _ _ _
  have hvalid : isCacheValid
      { data := (processWeatherData env fetched.currentWeather fetched.forecastList fetched.airPollution),
        timestamp := tw,
        lastAccessed := tw } tr := httl
  refine ⟨?_, ?_, ?_⟩ <;>
    simp [fetchWeatherData, hget, hvalid, updateCacheAccessTime, mapGet_mapSet_self]

/-- Fixture: a successful joint network payload with an empty forecast
list and no air-quality data. -/
def exFetched : FetchedData := ⟨exCw, [], none⟩

/-- C8 witness: write at time 0, read back at time 1 under the same key. -/
theorem cache_roundtrip_witness :
    mapGet exStateParis.cache (getCacheKey exParamsQ) = none ∧
    (1 : Int) - 0 < CACHE_DURATION ∧
    (fetchWeatherData (fetchWeatherData exStateParis exParamsQ true
        (Except.ok exFetched) 0 exEnv) exParamsQ true (Except.error exErrNet) 1
        exEnv).weatherData
      = some (processWeatherData exEnv exCw [] none) :=
  ⟨rfl, by decide,
   (cache_roundtrip exStateParis exParamsQ exFetched 0 1 exEnv exEnv
     (Except.error exErrNet) rfl (by decide)).1⟩

/-- Fixture: the `i`-th cache entry, keyed `toString i`, last accessed at
time `i`. -/
def exCacheEntry (i : Nat) : String × CacheEntry :=
  (toString i, { data := exSnapshot, timestamp := 0, lastAccessed := i })

/-- Fixture: a cache already at the 50-entry capacity. -/
def exCache50 : List (String × CacheEntry) := (List.range 50).map exCacheEntry

/-- Fixture: `exStateParis` with the cache at capacity. -/
def exState50 : StoreState := { exStateParis with cache := exCache50 }

/-- Fixture: a by-name query for a key not present in `exCache50`. -/
def exParamsNew : WeatherParams := ⟨some "London", none, none⟩

/-- C2 counterexample: the cache write of a successful fetch performs no
eviction — immediately after a put onto a 50-entry cache the size is 51,
and the entry with the smallest `lastAccessed` is still present. -/
theorem put_over_capacity_counterexample :
    exCache50.length = 50 ∧
    (fetchWeatherData exState50 exParamsNew true (Except.ok exFetched) 1000
      exEnv).cache.length = 51 ∧
    ¬ (fetchWeatherData exState50 exParamsNew true (Except.ok exFetched) 1000
      exEnv).cache.length = 50 ∧
    exCacheEntry 0 ∈ (fetchWeatherData exState50 exParamsNew true
      (Except.ok exFetched) 1000 exEnv).cache := by
  refine ⟨by decide, ?_, ?_, ?_⟩
  · show (mapSet exCache50 "London" _).length = 51
    rw [mapSet, if_neg (by decide)]
    simp [exCache50]
  · show ¬ (mapSet exCache50 "London" _).length = 50
    rw [mapSet, if_neg (by decide)]
    simp [exCache50]
  · show exCacheEntry 0 ∈ mapSet exCache50 "London" _
    rw [mapSet, if_neg (by decide)]
    exact List.mem_append_left _ (by decide)

/-- Folding `Map.delete` over a list of entries keeps exactly the entries
whose key differs from every deleted entry's key. -/
theorem foldl_mapDelete_eq_filter :
    ∀ (l cache : List (String × CacheEntry)),
      l.foldl (fun c p => mapDelete c p.1) cache
        = cache.filter (fun q => l.all (fun p => q.1 ≠ p.1)) := by
  intro l
  induction l with
  | nil =>
      intro cache
      simp
  | cons p l ih =>
      intro cache
      rw [List.foldl_cons, ih, mapDelete, List.filter_filter]
      apply List.filter_congr
      intro q _
      simp [List.all_cons, Bool.and_comm]

/-- C2 amended: the cache write of a successful fetch performs no eviction;
the eviction lives in `cleanCache` (run by the periodic timer), which — on a
cache of more than `MAX_CACHE_SIZE` entries with pairwise-distinct keys and
pairwise-distinct `lastAccessed` stamps — keeps exactly `MAX_CACHE_SIZE`
(50) entries, all drawn from the cache, and every evicted entry is
less recently accessed than every survivor: exactly the 50 entries with the
most recent `lastAccessed` remain. -/
theorem cleanCache_evicts_oldest (cache : List (String × CacheEntry))
    (hkeys : (cache.map (fun p => p.1)).Nodup)
    (hla : (cache.map (fun p => p.2.lastAccessed)).Nodup)
    (hlen : MAX_CACHE_SIZE < cache.length) :
    (cleanCache cache).length = MAX_CACHE_SIZE ∧
    (∀ p ∈ cleanCache cache, p ∈ cache) ∧
    (∀ p ∈ cleanCache cache, ∀ q ∈ cache, q ∉ cleanCache cache →
      q.2.lastAccessed < p.2.lastAccessed) := by
  have hnle : ¬ cache.length ≤ MAX_CACHE_SIZE := not_le.mpr hlen
  set sorted := List.insertionSort leLastAccessed cache with hsorteddef
  set k := cache.length - MAX_CACHE_SIZE with hkdef
  set P : (String × CacheEntry) → Bool :=
    fun q => (sorted.take k).all (fun p => q.1 ≠ p.1) with hPdef
  have hclean : cleanCache cache = cache.filter P := by
    rw [cleanCache, if_neg hnle]
    exact foldl_mapDelete_eq_filter _ _
  have hperm : sorted.Perm cache := List.perm_insertionSort _ _
  have hsort : List.Sorted leLastAccessed sorted := List.sorted_insertionSort _ _
  have hnd : cache.Nodup := List.Nodup.of_map _ hla
  have hndS : sorted.Nodup := hperm.nodup_iff.mpr hnd
  have hsplit : sorted.take k ++ sorted.drop k = sorted := List.take_append_drop k sorted
  have htake_sub : ∀ q ∈ sorted.take k, q ∈ cache := fun q hq =>
    hperm.subset (List.take_subset _ _ hq)
  have hdrop_sub : ∀ q ∈ sorted.drop k, q ∈ cache := fun q hq =>
    hperm.subset (List.drop_subset _ _ hq)
  have keyInj : ∀ {p q}, p ∈ cache → q ∈ cache → p.1 = q.1 → p = q :=
    fun hp hq h => List.inj_on_of_nodup_map hkeys hp hq h
  have laInj : ∀ {p q}, p ∈ cache → q ∈ cache →
      p.2.lastAccessed = q.2.lastAccessed → p = q :=
    fun hp hq h => List.inj_on_of_nodup_map hla hp hq h
  have hndTD : (sorted.take k ++ sorted.drop k).Nodup := by rw [hsplit]; exact hndS
  have hdropNotTake : ∀ q ∈ sorted.drop k, q ∉ sorted.take k := by
    intro q hqd hqt
    exact (List.nodup_append.mp hndTD).2.2 hqt hqd
  have hmem : ∀ p, p ∈ cleanCache cache ↔ p ∈ cache ∧ p ∉ sorted.take k := by
    intro p
    rw [hclean, List.mem_filter]
    constructor
    · rintro ⟨hp, hall⟩
      refine ⟨hp, fun hmemtake => ?_⟩
      have h2 := List.all_eq_true.mp hall p hmemtake
      simp at h2
    · rintro ⟨hp, hnot⟩
      refine ⟨hp, List.all_eq_true.mpr fun q hq => ?_⟩
      have hqc : q ∈ cache := htake_sub q hq
      simp only [decide_eq_true_eq]
      intro heq
      exact hnot (by rw [show p = q from keyInj hp hqc heq]; exact hq)
  have hmem_drop : ∀ p, p ∈ cleanCache cache ↔ p ∈ sorted.drop k := by
    intro p
    rw [hmem]
    constructor
    · rintro ⟨hp, hnt⟩
      have hps : p ∈ sorted := hperm.mem_iff.mpr hp
      rw [← hsplit] at hps
      rcases List.mem_append.mp hps with h | h
      · exact absurd h hnt
      · exact h
    · intro hd
      exact ⟨hdrop_sub p hd, hdropNotTake p hd⟩
  have hfilter_take : (sorted.take k).filter P = [] := by
    rw [List.filter_eq_nil_iff]
    intro q hq hPq
    have h2 := List.all_eq_true.mp hPq q hq
    simp at h2
  have hfilter_drop : (sorted.drop k).filter P = sorted.drop k := by
    rw [List.filter_eq_self]
    intro q hq
    refine List.all_eq_true.mpr fun p hp => ?_
    have hqc : q ∈ cache := hdrop_sub q hq
    have hpc : p ∈ cache := htake_sub p hp
    simp only [decide_eq_true_eq]
    intro heq
    exact hdropNotTake q hq (by rw [show q = p from keyInj hqc hpc heq]; exact hp)
  have hfilter_sorted : sorted.filter P = sorted.drop k := by
    conv_lhs => rw [← hsplit]
    rw [List.filter_append, hfilter_take, hfilter_drop, List.nil_append]
  have hresult_perm : (cleanCache cache).Perm (sorted.drop k) := by
    rw [hclean, ← hfilter_sorted]
    exact (hperm.symm).filter P
  have hlen_sorted : sorted.length = cache.length := hperm.length_eq
  have hdrop_len : (sorted.drop k).length = MAX_CACHE_SIZE := by
    rw [List.length_drop, hlen_sorted, hkdef]
    omega
  refine ⟨hresult_perm.length_eq.trans hdrop_len, fun p hp => ((hmem p).mp hp).1, ?_⟩
  intro p hp q hq hqnot
  have hpd : p ∈ sorted.drop k := (hmem_drop p).mp hp
  have hqt : q ∈ sorted.take k := by
    have hqs : q ∈ sorted := hperm.mem_iff.mpr hq
    rw [← hsplit] at hqs
    rcases List.mem_append.mp hqs with h | h
    · exact h
    · exact absurd ((hmem_drop q).mpr h) hqnot
  have hpw : List.Pairwise leLastAccessed (sorted.take k ++ sorted.drop k) := by
    rw [hsplit]; exact hsort
  have hle : leLastAccessed q p := (List.pairwise_append.mp hpw).2.2 q hqt p hpd
  have hle' : q.2.lastAccessed ≤ p.2.lastAccessed := hle
  have hne : q.2.lastAccessed ≠ p.2.lastAccessed := by
    intro h
    have hqp : q = p := laInj hq (((hmem p).mp hp).1) h
    exact hdropNotTake p hpd (by rw [← hqp]; exact hqt)
  exact lt_of_le_of_ne hle' hne

/-- Fixture: a 51-entry cache with distinct keys and distinct access
stamps. -/
def exCache51 : List (String × CacheEntry) := (List.range 51).map exCacheEntry

/-- C2 amended witness: on the concrete 51-entry cache, `cleanCache` leaves
exactly 50 entries. -/
theorem cleanCache_evicts_oldest_witness :
    MAX_CACHE_SIZE < exCache51.length ∧
    (cleanCache exCache51).length = MAX_CACHE_SIZE :=
  ⟨by decide,
   (cleanCache_evicts_oldest exCache51 (by decide) (by decide) (by decide)).1⟩
